import Mathlib

/-!
# Verification of the highcharts-core schema/serialization layer

Shallow embedding of the configuration-node classes found in the repository
sources:

* `src/highcharts/axes/numeric.py` (`NumericAxis`)
* `src/highcharts/plot_options/bar.py` (`BaseBarOptions`, `BarOptions`, ...)
* `src/highcharts/plot_options/boxplot.py` (`BoxPlotOptions`)
* `src/highcharts/plot_options/venn.py` (`VennOptions`)

Wire values are modelled by the inductive type `Value` (a JSON-like tree);
Python exceptions are modelled by `PyErr`; fallible operations return
`Except PyErr _`.  External collaborators that are not part of the provided
sources (the `validator_collection` validators, the metaclass helper
`trim_dict`, the decorators `class_sensitive` / `validate_types`, the
`Gradient` / `Pattern` utility classes and `utility_functions.validate_color`)
are modelled from the specification; each such definition carries a doc
comment starting with `Modelled from the spec:`.  Everything else is
translated directly from the Python sources.
-/

set_option maxRecDepth 4000

namespace Highcharts

/-- A JSON-like wire value: the untyped mapping format exchanged with the
renderer.  Numbers are modelled as rationals (covering the ints, floats and
Decimals appearing in the sources). -/
inductive Value where
  | null
  | bool (b : Bool)
  | num (q : Rat)
  | str (s : String)
  | list (xs : List Value)
  | dict (entries : List (String × Value))
  deriving Inhabited

/-- Python exception model: we track the builtin class that matters for the
control flow in the sources (`except ValueError` / `except TypeError`). -/
inductive PyErr where
  | typeError (msg : String)
  | valueError (msg : String)
  deriving DecidableEq, Repr

/-- `True` when the error is a `TypeError`. -/
def PyErr.isTypeError : PyErr → Bool
  | .typeError _ => true
  | .valueError _ => false

/-- `True` when an `Except` computation failed. -/
def isError {α : Type} : Except PyErr α → Bool
  | .error _ => true
  | .ok _ => false

/-- `True` when an `Except` computation failed with a `TypeError`. -/
def isTypeErrorResult {α : Type} : Except PyErr α → Bool
  | .error e => e.isTypeError
  | .ok _ => false

/-- Python truthiness of a wire value (`if not value:` in the sources):
`None`, `False`, `0`, the empty string, the empty list and the empty dict are
falsy, everything else is truthy. -/
def pyTruthy : Value → Bool
  | .null => false
  | .bool b => b
  | .num q => q != 0
  | .str s => s ≠ ""
  | .list xs => !xs.isEmpty
  | .dict es => !es.isEmpty

/-- Substring occurrence test on character lists. -/
def subOccurs (sub : List Char) : List Char → Bool
  | [] => sub.isEmpty
  | c :: rest => sub.isPrefixOf (c :: rest) || subOccurs sub rest

/-- Substring test, used for the Python expression `marker in value` when
`value` is a `str`. -/
def strContains (s sub : String) : Bool :=
  subOccurs sub.toList s.toList

/-- Key-membership test, used for the Python expression `marker in value` when
`value` is a `dict`. -/
def hasKey (es : List (String × Value)) (k : String) : Bool :=
  es.any (fun e => e.1 = k)

/-- Association-list lookup with Python `dict.pop(key, None)` defaulting. -/
def lookupD (es : List (String × Value)) (k : String) : Value :=
  match es.find? (fun e => e.1 = k) with
  | some e => e.2
  | none => .null

/-- The keyword arguments left over after a class popped its own keys. -/
def removeKeys (es : List (String × Value)) (ks : List String) :
    List (String × Value) :=
  es.filter (fun e => ¬ (e.1 ∈ ks))

/-! ## Validation-primitive collaborator (`validator_collection`) -/

/-- Modelled from the spec: `validators.string(value, allow_empty)` of the
external `validator_collection` collaborator (spec section 6): it returns a
normalized value or raises a typed validation error; with
`allow_empty = True` a null input maps to the null sentinel instead of
raising.  A non-string, non-null input cannot be coerced and raises. -/
def vString (allowEmpty : Bool) : Value → Except PyErr (Option String)
  | .null => if allowEmpty then .ok none else .error (.valueError "value is empty")
  | .str s => .ok (some s)
  | _ => .error (.valueError "value cannot be coerced to a string")

/-- Modelled from the spec: `validators.numeric(value, allow_empty, minimum)`
of the external `validator_collection` collaborator (spec section 6). A
violated minimum raises a validation error (a `ValueError`). -/
def vNumeric (allowEmpty : Bool) (minimum : Option Rat) :
    Value → Except PyErr (Option Rat)
  | .null =>
      if allowEmpty then .ok none else .error (.valueError "value is empty")
  | .num q =>
      match minimum with
      | some m =>
          if m ≤ q then .ok (some q)
          else .error (.valueError "value is less than the allowed minimum")
      | none => .ok (some q)
  | _ => .error (.valueError "value cannot be coerced to a numeric value")

/-- Modelled from the spec: `validators.integer(value, allow_empty, minimum)`
of the external `validator_collection` collaborator (spec section 6). -/
def vInteger (allowEmpty : Bool) (minimum : Option Rat) :
    Value → Except PyErr (Option Rat)
  | .null =>
      if allowEmpty then .ok none else .error (.valueError "value is empty")
  | .num q =>
      if q.den = 1 then
        match minimum with
        | some m =>
            if m ≤ q then .ok (some q)
            else .error (.valueError "value is less than the allowed minimum")
        | none => .ok (some q)
      else .error (.valueError "value is not an integer")
  | _ => .error (.valueError "value cannot be coerced to an integer")

/-- Modelled from the spec: `validators.iterable(value)` of the external
`validator_collection` collaborator (spec section 6): returns the iterable
unchanged or raises a typed validation error. -/
def vIterable : Value → Except PyErr (List Value)
  | .list xs => .ok xs
  | _ => .error (.valueError "value is not iterable")

/-! ## Trimming engine (`trim_dict` of the schema-node base) -/

/-- `True` when a (already-trimmed) wire value counts as empty: the null
sentinel, the empty string, the empty sequence or the empty mapping. -/
def isEmptyV : Value → Bool
  | .null => true
  | .str s => s = ""
  | .list xs => xs.isEmpty
  | .dict es => es.isEmpty
  | _ => false

mutual

/-- Modelled from the spec: the recursive `trim_dict` machinery of the schema
node base class (not part of the provided sources; spec section 4.2,
`toWire`): any key whose value is null, an empty string, an empty collection,
or a nested node/sequence that itself trims to empty is removed, and trimming
is deep — a child is trimmed before the parent decides whether the key
survives.  Booleans (in particular `False`) are never empty. -/
def trimValue : Value → Value
  | .null => .null
  | .bool b => .bool b
  | .num q => .num q
  | .str s => .str s
  | .list xs => .list (trimList xs)
  | .dict es => .dict (trimEntries es)

/-- Trim every element of a sequence, dropping elements that trim to empty. -/
def trimList : List Value → List Value
  | [] => []
  | x :: xs =>
      let t := trimValue x
      if isEmptyV t then trimList xs else t :: trimList xs

/-- Trim every entry of a mapping, dropping keys whose value trims to empty. -/
def trimEntries : List (String × Value) → List (String × Value)
  | [] => []
  | (k, v) :: rest =>
      let t := trimValue v
      if isEmptyV t then trimEntries rest else (k, t) :: trimEntries rest

end

/-! ## Polymorphic color-like values -/

/-- The raw value handed to a color-like setter: either a wire value or an
already-typed `Gradient` / `Pattern` instance (whose payload we keep
abstract as its underlying wire representation). -/
inductive ColorInput where
  | raw (v : Value)
  | gradientInst (g : Value)
  | patternInst (p : Value)

/-- A stored color-like attribute value: a plain color string, a `Gradient`
instance or a `Pattern` instance. -/
inductive ColorVal where
  | plain (s : String)
  | grad (g : Value)
  | pat (p : Value)

/-- The interface of the `Gradient` (resp. `Pattern`) utility class that the
setters in `src/highcharts/axes/numeric.py` call into.  The class itself
lives in `highcharts/utility_classes/gradients.py` (resp. `patterns.py`),
which is not among the provided sources, so its parse outcomes are kept as
parameters: `none` models the call raising a `ValueError` (the exception
class that the setters catch). -/
structure ParseApi where
  fromJson : Value → Option Value
  fromDict : Value → Option Value
  construct : List (String × Value) → Option Value

/-- A `ParseApi` on which every parse attempt fails. -/
def failingApi : ParseApi :=
  { fromJson := fun _ => none
    fromDict := fun _ => none
    construct := fun _ => none }

/-- The `NumericAxis.alternate_grid_color` setter, translated from
`src/highcharts/axes/numeric.py` lines 127-156: falsy values store null;
typed instances are stored as-is; a dict or string containing
`linearGradient` is parsed via `Gradient.from_json`, falling back on
`ValueError` to `Gradient.from_dict` for a dict and to `validators.string`
for a string; a dict containing `linear_gradient` goes through the
`Gradient` constructor; the two pattern branches mirror the gradient ones;
everything else raises `HighchartsValueError` — note that a plain string
with no marker falls through to that final `raise`. -/
def alternateGridColorSetter (g p : ParseApi) :
    ColorInput → Except PyErr (Option ColorVal)
  | .gradientInst v => .ok (some (.grad v))
  | .patternInst v => .ok (some (.pat v))
  | .raw v =>
      if !pyTruthy v then .ok none
      else
        match v with
        | .dict es =>
            if hasKey es "linearGradient" then
              match g.fromJson (.dict es) with
              | some gr => .ok (some (.grad gr))
              | none =>
                  match g.fromDict (.dict es) with
                  | some gr => .ok (some (.grad gr))
                  | none => .error (.valueError "Gradient.from_dict failed")
            else if hasKey es "linear_gradient" then
              match g.construct es with
              | some gr => .ok (some (.grad gr))
              | none => .error (.valueError "Gradient constructor failed")
            else if hasKey es "patternOptions" then
              match p.fromJson (.dict es) with
              | some pr => .ok (some (.pat pr))
              | none =>
                  match p.fromDict (.dict es) with
                  | some pr => .ok (some (.pat pr))
                  | none => .error (.valueError "Pattern.from_dict failed")
            else if hasKey es "pattern_options" then
              match p.construct es with
              | some pr => .ok (some (.pat pr))
              | none => .error (.valueError "Pattern constructor failed")
            else
              .error (.valueError
                "Unable to resolve value to a string, Gradient, or Pattern")
        | .str s =>
            if strContains s "linearGradient" then
              match g.fromJson (.str s) with
              | some gr => .ok (some (.grad gr))
              | none => .ok (some (.plain s))
            else if strContains s "patternOptions" then
              match p.fromJson (.str s) with
              | some pr => .ok (some (.pat pr))
              | none => .ok (some (.plain s))
            else
              .error (.valueError
                "Unable to resolve value to a string, Gradient, or Pattern")
        | _ =>
            .error (.valueError
              "Unable to resolve value to a string, Gradient, or Pattern")

/-- Modelled from the spec: `utility_functions.validate_color` (the module
`highcharts/utility_functions.py` is not among the provided sources), the
polymorphic color resolver of spec section 4.1: falsy input → null; typed
instance → stored as-is; mapping carrying a gradient (resp. pattern) marker
key → resolved as a Gradient (resp. Pattern); plain string → stored as a
plain color string; any other value → typed error. -/
def validateColor : ColorInput → Except PyErr (Option ColorVal)
  | .gradientInst v => .ok (some (.grad v))
  | .patternInst v => .ok (some (.pat v))
  | .raw v =>
      if !pyTruthy v then .ok none
      else
        match v with
        | .str s => .ok (some (.plain s))
        | .dict es =>
            if hasKey es "linearGradient" || hasKey es "linear_gradient" then
              .ok (some (.grad (.dict es)))
            else if hasKey es "patternOptions" || hasKey es "pattern_options" then
              .ok (some (.pat (.dict es)))
            else .error (.valueError "unable to resolve value to a color")
        | _ => .error (.valueError "unable to resolve value to a color")

/-- Render a stored color-like value back into a wire value. -/
def colorToValue : Option ColorVal → Value
  | none => .null
  | some (.plain s) => .str s
  | some (.grad g) => g
  | some (.pat p) => p

/-! ## Shared setter bodies -/

/-- The boolean-attribute setter body, shared verbatim by the setters of
`align_ticks`, `allow_decimals`, `opposite`, `reversed_stacks` and
`zoom_enabled` in `src/highcharts/axes/numeric.py`, of
`center_in_category`, `color_by_point` and `grouping` in
`src/highcharts/plot_options/bar.py`, and of `crisp` and
`relative_x_value` in `src/highcharts/plot_options/venn.py`:
`if value is None: ... = None  else: ... = bool(value)`. -/
def boolSetter : Value → Option Bool
  | .null => none
  | v => some (pyTruthy v)

/-- The `NumericAxis.align_ticks` setter
(`src/highcharts/axes/numeric.py` lines 88-93). -/
def alignTicksSetter : Value → Option Bool := boolSetter

/-- The `BaseBarOptions.color_by_point` setter
(`src/highcharts/plot_options/bar.py` lines 123-128). -/
def colorByPointSetter : Value → Option Bool := boolSetter

/-- Modelled from the spec: `constants.SUPPORTED_DASH_STYLE_VALUES`
(`highcharts/constants.py` is not among the provided sources); the allowed
set is the one listed in the dash-style docstrings of
`src/highcharts/plot_options/boxplot.py`. -/
def SUPPORTED_DASH_STYLE_VALUES : List String :=
  ["Dash", "DashDot", "Dot", "LongDash", "LongDashDot", "LongDashDotDot",
   "ShortDash", "ShortDashDot", "ShortDashDotDot", "ShortDot", "Solid"]

/-- The dash-style setter body shared (up to the attribute name in the error
message) by `box_dash_style`, `median_dash_style`, `stem_dash_style` and
`whisker_dash_style` in `src/highcharts/plot_options/boxplot.py`:
falsy → null, else `validators.string`, then membership in
`SUPPORTED_DASH_STYLE_VALUES`, raising `HighchartsValueError` otherwise. -/
def dashStyleSetter (attr : String) (value : Value) :
    Except PyErr (Option String) :=
  if !pyTruthy value then .ok none
  else
    match vString false value with
    | .error e => .error e
    | .ok none => .ok none
    | .ok (some s) =>
        if s ∈ SUPPORTED_DASH_STYLE_VALUES then .ok (some s)
        else .error (.valueError
          (attr ++ " expects a recognized value, but received: " ++ s))

/-- The `BoxPlotOptions.box_dash_style` setter
(`src/highcharts/plot_options/boxplot.py` lines 79-88). -/
def boxDashStyleSetter : Value → Except PyErr (Option String) :=
  dashStyleSetter "box_dash_style"

/-- Modelled from the spec: the `class_sensitive(Cls)` decorator
(`highcharts/decorators.py` is not among the provided sources): per spec
sections 4.4 and 2 item 5, the raw value is resolved via the referenced
node class; we keep the resolved node abstract as its wire representation,
with null mapping to the null sentinel. -/
def classSensitiveSingle : Value → Option Value
  | .null => none
  | v => some v

/-- Modelled from the spec: the `class_sensitive(Cls, force_iterable = True)`
decorator (not among the provided sources): per spec section 4.4 a sequence
is resolved element-wise and a single bare item is wrapped as a one-element
sequence; null maps to the null sentinel. -/
def classSensitiveIterable : Value → Option (List Value)
  | .null => none
  | .list xs => some xs
  | v => some [v]

/-- The `NumericAxis.categories` setter
(`src/highcharts/axes/numeric.py` lines 195-200): falsy → null, else
`[validators.string(x) for x in validators.iterable(value)]`. -/
def categoriesSetter (v : Value) : Except PyErr (Option (List String)) :=
  if !pyTruthy v then .ok none
  else do
    let xs ← vIterable v
    let ss ← xs.mapM (fun x => do
      match ← vString false x with
      | some s => pure s
      | none => Except.error (.valueError "value is empty"))
    pure (some ss)

/-! ## NumericAxis (`src/highcharts/axes/numeric.py`) -/

/-- Render an optional boolean attribute into its wire value. -/
def optBoolToValue : Option Bool → Value
  | none => .null
  | some b => .bool b

/-- Render an optional numeric attribute into its wire value. -/
def optNumToValue : Option Rat → Value
  | none => .null
  | some q => .num q

/-- Render an optional string attribute into its wire value. -/
def optStrToValue : Option String → Value
  | none => .null
  | some s => .str s

/-- Render an optional nested-node attribute into its wire value. -/
def optValToValue : Option Value → Value
  | none => .null
  | some v => v

/-- Render an optional node-sequence attribute into its wire value. -/
def optListToValue : Option (List Value) → Value
  | none => .null
  | some xs => .list xs

/-- Render an optional string-sequence attribute into its wire value. -/
def optStrListToValue : Option (List String) → Value
  | none => .null
  | some xs => .list (xs.map .str)

/-- The state of a `NumericAxis` instance: the seventeen attributes declared
in `NumericAxis.__init__` (`src/highcharts/axes/numeric.py` lines 21-58),
plus the inherited `GenericAxis` attributes.  `GenericAxis`
(`highcharts/axes/generic.py`) is not among the provided sources;
modelled from the spec (section 2 item 4) it stores the universally shared
axis attributes, which we keep as a mapping from snake_case attribute name
to stored wire value. -/
structure NumericAxis where
  align_ticks : Option Bool := none
  allow_decimals : Option Bool := none
  alternate_grid_color : Option ColorVal := none
  breaks : Option (List Value) := none
  categories : Option (List String) := none
  date_time_label_formats : Option Value := none
  linked_to : Option Rat := none
  min_range : Option Rat := none
  min_tick_interval : Option Rat := none
  offset : Option Rat := none
  opposite : Option Bool := none
  pane : Option Rat := none
  plot_bands : Option (List Value) := none
  plot_lines : Option (List Value) := none
  reversed_stacks : Option Bool := none
  title : Option Value := none
  zoom_enabled : Option Bool := none
  generic : List (String × Value) := []

/-- The snake_case keyword names popped by `NumericAxis.__init__` itself. -/
def numericOwnNames : List String :=
  ["align_ticks", "allow_decimals", "alternate_grid_color", "breaks",
   "categories", "date_time_label_formats", "linked_to", "min_range",
   "min_tick_interval", "offset", "opposite", "pane", "plot_bands",
   "plot_lines", "reversed_stacks", "title", "zoom_enabled"]

/-- `NumericAxis.__init__` (`src/highcharts/axes/numeric.py` lines 21-58):
each own attribute is popped from the keyword arguments (defaulting to null)
and run through its setter, in declaration order; the remaining keyword
arguments go to `super().__init__` (the modelled `GenericAxis` storage).
The `Gradient` / `Pattern` parse outcomes are the `ParseApi` parameters. -/
def numericConstruct (g p : ParseApi) (kwargs : List (String × Value)) :
    Except PyErr NumericAxis := do
  let align_ticks := alignTicksSetter (lookupD kwargs "align_ticks")
  let allow_decimals := boolSetter (lookupD kwargs "allow_decimals")
  let alternate_grid_color ←
    alternateGridColorSetter g p (.raw (lookupD kwargs "alternate_grid_color"))
  let breaks := classSensitiveIterable (lookupD kwargs "breaks")
  let categories ← categoriesSetter (lookupD kwargs "categories")
  let date_time_label_formats :=
    classSensitiveSingle (lookupD kwargs "date_time_label_formats")
  let linked_to ← vInteger true (some 0) (lookupD kwargs "linked_to")
  let min_range ← vNumeric true none (lookupD kwargs "min_range")
  let min_tick_interval ← vNumeric true none (lookupD kwargs "min_tick_interval")
  let offset ← vNumeric true none (lookupD kwargs "offset")
  let opposite := boolSetter (lookupD kwargs "opposite")
  let pane ← vInteger true (some 0) (lookupD kwargs "pane")
  let plot_bands := classSensitiveIterable (lookupD kwargs "plot_bands")
  let plot_lines := classSensitiveIterable (lookupD kwargs "plot_lines")
  let reversed_stacks := boolSetter (lookupD kwargs "reversed_stacks")
  let title := classSensitiveSingle (lookupD kwargs "title")
  let zoom_enabled := boolSetter (lookupD kwargs "zoom_enabled")
  pure
    { align_ticks := align_ticks
      allow_decimals := allow_decimals
      alternate_grid_color := alternate_grid_color
      breaks := breaks
      categories := categories
      date_time_label_formats := date_time_label_formats
      linked_to := linked_to
      min_range := min_range
      min_tick_interval := min_tick_interval
      offset := offset
      opposite := opposite
      pane := pane
      plot_bands := plot_bands
      plot_lines := plot_lines
      reversed_stacks := reversed_stacks
      title := title
      zoom_enabled := zoom_enabled
      generic := removeKeys kwargs numericOwnNames }

/-- The keyword-argument mapping built by `NumericAxis.from_dict`
(`src/highcharts/axes/numeric.py` lines 454-523): every recognized
camelCase wire key is popped into its snake_case keyword name. -/
def numericFromDictKwargs (d : List (String × Value)) :
    List (String × Value) :=
  [("accessibility", lookupD d "accessibility"),
   ("align_ticks", lookupD d "alignTicks"),
   ("allow_decimals", lookupD d "allowDecimals"),
   ("alternate_grid_color", lookupD d "alternateGridColor"),
   ("angle", lookupD d "angle"),
   ("breaks", lookupD d "breaks"),
   ("categories", lookupD d "categories"),
   ("ceiling", lookupD d "ceiling"),
   ("class_name", lookupD d "className"),
   ("date_time_label_formats", lookupD d "dateTimeLabelFormats"),
   ("end_on_tick", lookupD d "endOnTick"),
   ("events", lookupD d "events"),
   ("floor", lookupD d "floor"),
   ("grid_line_color", lookupD d "gridLineColor"),
   ("grid_line_dash_style", lookupD d "gridLineDashStyle"),
   ("grid_line_interpolation", lookupD d "gridLineInterpolation"),
   ("grid_line_width", lookupD d "gridLineWidth"),
   ("grid_z_index", lookupD d "gridZIndex"),
   ("id", lookupD d "id"),
   ("labels", lookupD d "labels"),
   ("linked_to", lookupD d "linkedTo"),
   ("margin", lookupD d "margin"),
   ("max", lookupD d "max"),
   ("max_padding", lookupD d "maxPadding"),
   ("min", lookupD d "min"),
   ("minor_grid_line_color", lookupD d "minorGridLineColor"),
   ("minor_grid_line_dash_style", lookupD d "minorGridLineDashStyle"),
   ("minor_grid_line_width", lookupD d "minorGridLineWidth"),
   ("minor_tick_color", lookupD d "minorTickColor"),
   ("minor_tick_interval", lookupD d "minorTickInterval"),
   ("minor_tick_length", lookupD d "minorTickLength"),
   ("minor_tick_position", lookupD d "minorTickPosition"),
   ("minor_ticks", lookupD d "minorTicks"),
   ("minor_tick_width", lookupD d "minorTickWidth"),
   ("min_padding", lookupD d "minPadding"),
   ("min_range", lookupD d "minRange"),
   ("min_tick_interval", lookupD d "minTickInterval"),
   ("offset", lookupD d "offset"),
   ("opposite", lookupD d "opposite"),
   ("pane", lookupD d "pane"),
   ("panning_enabled", lookupD d "panningEnabled"),
   ("plot_bands", lookupD d "plotBands"),
   ("plot_lines", lookupD d "plotLines"),
   ("reversed", lookupD d "reversed"),
   ("reversed_stacks", lookupD d "reversedStacks"),
   ("show_first_label", lookupD d "showFirstLabel"),
   ("show_last_label", lookupD d "showLastLabel"),
   ("soft_max", lookupD d "softMax"),
   ("soft_min", lookupD d "softMin"),
   ("start_of_week", lookupD d "startOfWeek"),
   ("start_on_tick", lookupD d "startOnTick"),
   ("tick_amount", lookupD d "tickAmount"),
   ("tick_color", lookupD d "tickColor"),
   ("tick_interval", lookupD d "tickInterval"),
   ("tick_length", lookupD d "tickLength"),
   ("tickmark_placement", lookupD d "tickmarkPlacement"),
   ("tick_pixel_interval", lookupD d "tickPixelInterval"),
   ("tick_position", lookupD d "tickPosition"),
   ("tick_positioner", lookupD d "tickPositioner"),
   ("tick_positions", lookupD d "tickPositions"),
   ("tick_width", lookupD d "tickWidth"),
   ("title", lookupD d "title"),
   ("type", lookupD d "type"),
   ("unique_names", lookupD d "uniqueNames"),
   ("units", lookupD d "units"),
   ("visible", lookupD d "visible"),
   ("z_index", lookupD d "zIndex"),
   ("zoom_enabled", lookupD d "zoomEnabled")]

/-- `NumericAxis.from_dict` (`src/highcharts/axes/numeric.py` lines
452-525): build the keyword mapping from the wire mapping, then call the
constructor. -/
def numericFromDict (g p : ParseApi) (d : List (String × Value)) :
    Except PyErr NumericAxis :=
  numericConstruct g p (numericFromDictKwargs d)

/-- The untrimmed mapping built by `NumericAxis.to_dict`
(`src/highcharts/axes/numeric.py` lines 528-597), entry for entry in source
order — including the snake_case key `class_name` (line 537) and the
misspelled key `plotPands` (line 570). -/
def numericToUntrimmed (st : NumericAxis) : List (String × Value) :=
  let g := fun n => lookupD st.generic n
  [("accessibility", g "accessibility"),
   ("alignTicks", optBoolToValue st.align_ticks),
   ("allowDecimals", optBoolToValue st.allow_decimals),
   ("alternateGridColor", colorToValue st.alternate_grid_color),
   ("angle", g "angle"),
   ("breaks", optListToValue st.breaks),
   ("categories", optStrListToValue st.categories),
   ("ceiling", g "ceiling"),
   ("class_name", g "class_name"),
   ("dateTimeLabelFormats", optValToValue st.date_time_label_formats),
   ("endOnTick", g "end_on_tick"),
   ("events", g "events"),
   ("floor", g "floor"),
   ("gridLineColor", g "grid_line_color"),
   ("gridLineDashStyle", g "grid_line_dash_style"),
   ("gridLineInterpolation", g "grid_line_interpolation"),
   ("gridLineWidth", g "grid_line_width"),
   ("gridZIndex", g "grid_z_index"),
   ("id", g "id"),
   ("labels", g "labels"),
   ("linkedTo", optNumToValue st.linked_to),
   ("margin", g "margin"),
   ("max", g "max"),
   ("maxPadding", g "max_padding"),
   ("min", g "min"),
   ("minorGridLineColor", g "minor_grid_line_color"),
   ("minorGridLineDashStyle", g "minor_grid_line_dash_style"),
   ("minorGridLineWidth", g "minor_grid_line_width"),
   ("minorTickColor", g "minor_tick_color"),
   ("minorTickInterval", g "minor_tick_interval"),
   ("minorTickLength", g "minor_tick_length"),
   ("minorTickPosition", g "minor_tick_position"),
   ("minorTicks", g "minor_ticks"),
   ("minorTickWidth", g "minor_tick_width"),
   ("minPadding", g "min_padding"),
   ("minRange", optNumToValue st.min_range),
   ("minTickInterval", optNumToValue st.min_tick_interval),
   ("offset", optNumToValue st.offset),
   ("opposite", optBoolToValue st.opposite),
   ("pane", optNumToValue st.pane),
   ("panningEnabled", g "panning_enabled"),
   ("plotPands", optListToValue st.plot_bands),
   ("plotLines", optListToValue st.plot_lines),
   ("reversed", g "reversed"),
   ("reversedStacks", optBoolToValue st.reversed_stacks),
   ("showFirstLabel", g "show_first_label"),
   ("showLastLabel", g "show_last_label"),
   ("softMax", g "soft_max"),
   ("softMin", g "soft_min"),
   ("startOfWeek", g "start_of_week"),
   ("startOnTick", g "start_on_tick"),
   ("tickAmount", g "tick_amount"),
   ("tickColor", g "tick_color"),
   ("tickInterval", g "tick_interval"),
   ("tickLength", g "tick_length"),
   ("tickmarkPlacement", g "tickmark_placement"),
   ("tickPixelInterval", g "tick_pixel_interval"),
   ("tickPosition", g "tick_position"),
   ("tickPositioner", g "tick_positioner"),
   ("tickPositions", g "tick_positions"),
   ("tickWidth", g "tick_width"),
   ("title", optValToValue st.title),
   ("type", g "type"),
   ("uniqueNames", g "unique_names"),
   ("units", g "units"),
   ("visible", g "visible"),
   ("zIndex", g "z_index"),
   ("zoomEnabled", optBoolToValue st.zoom_enabled)]

/-- `NumericAxis.to_dict` (`src/highcharts/axes/numeric.py` lines 527-599):
the untrimmed mapping, run through the trimming engine
(`self.trim_dict(untrimmed)`). -/
def numericToDict (st : NumericAxis) : List (String × Value) :=
  trimEntries (numericToUntrimmed st)

/-! ## BaseBarOptions and friends (`src/highcharts/plot_options/bar.py`) -/

/-- `True` for a Python `str` object (the whole-value `isinstance` test in
the `colors` setter). -/
def isStrValue : Value → Bool
  | .str _ => true
  | _ => false

/-- Modelled from the spec: `validate_types(item, types = (Gradient,
Pattern))` from `highcharts/decorators.py` (not among the provided
sources): per spec sections 3 and 4.4 the item must resolve to a `Gradient`
or `Pattern` node, which are constructed from mappings; a plain color
string is neither, so it raises a typed validation error. -/
def validateTypesGP : Value → Except PyErr Value
  | .dict es => .ok (.dict es)
  | _ => .error (.valueError "value is not a Gradient or Pattern instance")

/-- The `BaseBarOptions.colors` setter
(`src/highcharts/plot_options/bar.py` lines 140-155), parameterized over
the `validate_types` resolver `vt`: falsy → null; else
`validators.iterable`, then for each item the source tests
`isinstance(value, str)` — the WHOLE iterable, not the item — and only
routes the item through `validate_types(item, (Gradient, Pattern))` when
that test is false.  (`validators.iterable` returns its argument
unchanged, so the tested object is the original `value`.) -/
def colorsLoop (vt : Value → Except PyErr Value) (value : Value) :
    List Value → Except PyErr (List Value)
  | [] => .ok []
  | item :: rest => do
      let x ← if isStrValue value then pure item else vt item
      let xs ← colorsLoop vt value rest
      pure (x :: xs)

/-- The guard-plus-append loop above, wrapped with the falsy check and
`validators.iterable` to form the whole `colors` setter body
(`src/highcharts/plot_options/bar.py` lines 140-155). -/
def colorsSetter (vt : Value → Except PyErr Value) (value : Value) :
    Except PyErr (Option (List Value)) :=
  if !pyTruthy value then .ok none
  else do
    let xs ← vIterable value
    let checked ← colorsLoop vt value xs
    pure (some checked)

/-- The per-item processing that the `colors` setter would need in order to
accept plain strings appearing inside a list: every item is routed through
`validate_types`, with no reachable string path (used to state what the
buggy whole-value guard collapses to on list input). -/
def colorsViaValidateTypes (vt : Value → Except PyErr Value) :
    List Value → Except PyErr (List Value)
  | [] => .ok []
  | item :: rest => do
      let x ← vt item
      let xs ← colorsViaValidateTypes vt rest
      pure (x :: xs)

/-- The `BaseBarOptions.point_range` setter
(`src/highcharts/plot_options/bar.py` lines 263-268).  The
`EnforcedNullType` branch concerns a typed sentinel object that cannot
occur in a wire value, so only the numeric branch is modelled. -/
def pointRangeSetter (v : Value) : Except PyErr (Option Rat) :=
  vNumeric true none v

/-- The thirteen own attributes of `BaseBarOptions`
(`src/highcharts/plot_options/bar.py` lines 18-45). -/
structure BaseBarState where
  border_color : Option ColorVal := none
  border_radius : Option Rat := none
  border_width : Option Rat := none
  center_in_category : Option Bool := none
  color_by_point : Option Bool := none
  colors : Option (List Value) := none
  grouping : Option Bool := none
  group_padding : Option Rat := none
  max_point_width : Option Rat := none
  min_point_length : Option Rat := none
  point_padding : Option Rat := none
  point_range : Option Rat := none
  point_width : Option Rat := none

/-- The snake_case keyword names popped by `BaseBarOptions.__init__`. -/
def baseBarOwnNames : List String :=
  ["border_color", "border_radius", "border_width", "center_in_category",
   "color_by_point", "colors", "grouping", "group_padding",
   "max_point_width", "min_point_length", "point_padding", "point_range",
   "point_width"]

/-- The own-attribute part of `BaseBarOptions.__init__`
(`src/highcharts/plot_options/bar.py` lines 33-45): every own attribute is
popped and run through its setter, in source order. -/
def baseBarOwnSetters (vt : Value → Except PyErr Value)
    (kwargs : List (String × Value)) : Except PyErr BaseBarState := do
  let border_color ← validateColor (.raw (lookupD kwargs "border_color"))
  let border_radius ← vNumeric true (some 0) (lookupD kwargs "border_radius")
  let border_width ← vNumeric true (some 0) (lookupD kwargs "border_width")
  let center_in_category := boolSetter (lookupD kwargs "center_in_category")
  let color_by_point := colorByPointSetter (lookupD kwargs "color_by_point")
  let colors ← colorsSetter vt (lookupD kwargs "colors")
  let grouping := boolSetter (lookupD kwargs "grouping")
  let group_padding ← vNumeric true (some 0) (lookupD kwargs "group_padding")
  let max_point_width ← vNumeric true (some 0) (lookupD kwargs "max_point_width")
  let min_point_length ← vNumeric true (some 0) (lookupD kwargs "min_point_length")
  let point_padding ← vNumeric true (some 0) (lookupD kwargs "point_padding")
  let point_range ← pointRangeSetter (lookupD kwargs "point_range")
  let point_width ← vNumeric true (some 0) (lookupD kwargs "point_width")
  pure
    { border_color := border_color
      border_radius := border_radius
      border_width := border_width
      center_in_category := center_in_category
      color_by_point := color_by_point
      colors := colors
      grouping := grouping
      group_padding := group_padding
      max_point_width := max_point_width
      min_point_length := min_point_length
      point_padding := point_padding
      point_range := point_range
      point_width := point_width }

/-- The `TypeError` raised by the Python expression `super(self)`: `super`
requires a type as its first argument, not an instance. -/
def superSelfTypeError : PyErr :=
  .typeError "super argument 1 must be a type, not an instance"

/-- `BaseBarOptions.__init__` (`src/highcharts/plot_options/bar.py` lines
18-47): after setting its own attributes it executes the invalid call
`super(self).__init__(**kwargs)` (line 47), which raises `TypeError`, so
construction never completes. -/
def baseBarConstruct (vt : Value → Except PyErr Value)
    (kwargs : List (String × Value)) : Except PyErr BaseBarState := do
  let _ ← baseBarOwnSetters vt kwargs
  .error superSelfTypeError

/-- `BarOptions.__init__` (`src/highcharts/plot_options/bar.py` lines
407-418): pops `depth`, `edge_color`, `edge_width`, `group_z_padding`,
then executes the invalid call `super(self).__init__(**kwargs)`
(line 418), which raises `TypeError`. -/
def barOptionsOwnSetters (kwargs : List (String × Value)) :
    Except PyErr Unit := do
  let _depth ← vNumeric true (some 0) (lookupD kwargs "depth")
  let _edge_color ← vString true (lookupD kwargs "edge_color")
  let _edge_width ← vNumeric true (some 0) (lookupD kwargs "edge_width")
  let _group_z_padding ← vNumeric true (some 0) (lookupD kwargs "group_z_padding")
  pure ()

/-- See the doc comment above `barOptionsOwnSetters`: own setters first,
then the invalid `super(self).__init__` delegation raises `TypeError`. -/
def barOptionsConstruct (kwargs : List (String × Value)) :
    Except PyErr Unit := do
  let _ ← barOptionsOwnSetters kwargs
  .error superSelfTypeError

/-- The own-key entries of `BaseBarOptions._to_untrimmed_dict`
(`src/highcharts/plot_options/bar.py` lines 374-388). -/
def baseBarOwnEntries (st : BaseBarState) : List (String × Value) :=
  [("borderColor", colorToValue st.border_color),
   ("borderRadius", optNumToValue st.border_radius),
   ("borderWidth", optNumToValue st.border_width),
   ("centerInCategory", optBoolToValue st.center_in_category),
   ("colorByPoint", optBoolToValue st.color_by_point),
   ("colors", optListToValue st.colors),
   ("grouping", optBoolToValue st.grouping),
   ("groupPadding", optNumToValue st.group_padding),
   ("maxPointWidth", optNumToValue st.max_point_width),
   ("minPointLength", optNumToValue st.min_point_length),
   ("pointPadding", optNumToValue st.point_padding),
   ("pointRange", optNumToValue st.point_range),
   ("pointWidth", optNumToValue st.point_width)]

/-- `BaseBarOptions._to_untrimmed_dict`
(`src/highcharts/plot_options/bar.py` lines 373-394): it builds its own
untrimmed entries and then executes the invalid call
`super(self)._to_untrimmed_dict()` (line 389), which raises `TypeError`,
so serialization never completes. -/
def baseBarToUntrimmedDict (st : BaseBarState) :
    Except PyErr (List (String × Value)) :=
  let _untrimmed := baseBarOwnEntries st
  .error superSelfTypeError

/-- The keyword-argument mapping built by
`BaseBarOptions._get_kwargs_from_dict`
(`src/highcharts/plot_options/bar.py` lines 293-371). -/
def baseBarGetKwargsFromDict (d : List (String × Value)) :
    List (String × Value) :=
  [("accessibility", lookupD d "accessibility"),
   ("allow_point_select", lookupD d "allowPointSelect"),
   ("animation", lookupD d "animation"),
   ("class_name", lookupD d "className"),
   ("clip", lookupD d "clip"),
   ("color", lookupD d "color"),
   ("cursor", lookupD d "cursor"),
   ("custom", lookupD d "custom"),
   ("dash_style", lookupD d "dashStyle"),
   ("data_labels", lookupD d "dataLabels"),
   ("description", lookupD d "description"),
   ("enable_mouse_tracking", lookupD d "enableMouseTracking"),
   ("events", lookupD d "events"),
   ("include_in_data_export", lookupD d "includeInDataExport"),
   ("keys", lookupD d "keys"),
   ("label", lookupD d "label"),
   ("linked_to", lookupD d "linkedTo"),
   ("marker", lookupD d "marker"),
   ("on_point", lookupD d "onPoint"),
   ("opacity", lookupD d "opacity"),
   ("point", lookupD d "point"),
   ("point_description_formatter", lookupD d "pointDescriptionFormatter"),
   ("selected", lookupD d "selected"),
   ("show_checkbox", lookupD d "showCheckbox"),
   ("show_in_legend", lookupD d "showInLegend"),
   ("skip_keyboard_navigation", lookupD d "skipKeyboardNavigation"),
   ("states", lookupD d "states"),
   ("threshold", lookupD d "threshold"),
   ("tooltip", lookupD d "tooltip"),
   ("turbo_threshold", lookupD d "turboThreshold"),
   ("visible", lookupD d "visible"),
   ("animation_limit", lookupD d "animationLimit"),
   ("boost_blending", lookupD d "boostBlending"),
   ("boost_threshold", lookupD d "boostThreshold"),
   ("color_axis", lookupD d "colorAxis"),
   ("color_index", lookupD d "colorIndex"),
   ("color_key", lookupD d "colorKey"),
   ("connect_ends", lookupD d "connectEnds"),
   ("connect_nulls", lookupD d "connectNulls"),
   ("crisp", lookupD d "crisp"),
   ("crop_threshold", lookupD d "cropThreshold"),
   ("data_sorting", lookupD d "dataSorting"),
   ("drag_drop", lookupD d "dragDrop"),
   ("find_nearest_point_by", lookupD d "findNearestPointBy"),
   ("get_extremes_for_all", lookupD d "getExtremesForAll"),
   ("linecap", lookupD d "linecap"),
   ("line_width", lookupD d "lineWidth"),
   ("negative_color", lookupD d "negativeColor"),
   ("point_interval", lookupD d "pointInterval"),
   ("point_interval_unit", lookupD d "pointIntervalUnit"),
   ("point_placement", lookupD d "pointPlacement"),
   ("point_start", lookupD d "pointStart"),
   ("relative_x_value", lookupD d "relativeXValue"),
   ("shadow", lookupD d "shadow"),
   ("soft_threshold", lookupD d "softThreshold"),
   ("stacking", lookupD d "stacking"),
   ("step", lookupD d "step"),
   ("zone_axis", lookupD d "zoneAxis"),
   ("zones", lookupD d "zones"),
   ("border_color", lookupD d "borderColor"),
   ("border_radius", lookupD d "borderRadius"),
   ("border_width", lookupD d "borderWidth"),
   ("center_in_category", lookupD d "centerInCategory"),
   ("color_by_point", lookupD d "colorByPoint"),
   ("colors", lookupD d "colors"),
   ("grouping", lookupD d "grouping"),
   ("group_padding", lookupD d "groupPadding"),
   ("max_point_width", lookupD d "maxPointWidth"),
   ("min_point_length", lookupD d "minPointLength"),
   ("point_padding", lookupD d "pointPadding"),
   ("point_range", lookupD d "pointRange"),
   ("point_width", lookupD d "pointWidth")]

/-- Modelled from the spec: the generic `fromWire` of the schema-node base
(spec section 4.2, not among the provided sources): class-specific key
extraction via `_get_kwargs_from_dict`, then delegation to the
constructor. -/
def baseBarFromDict (vt : Value → Except PyErr Value)
    (d : List (String × Value)) : Except PyErr BaseBarState :=
  baseBarConstruct vt (baseBarGetKwargsFromDict d)

/-- Modelled from the spec: the INTENDED construction of a bar-family node
(spec sections 4.2-4.3 and the design note in section 9 that each level
should delegate to its parent) with the invalid `super(self).__init__`
slip corrected to `super().__init__`: the own setters run, and the
remaining keyword arguments are stored by the parent levels (kept
abstract as validated storage keyed by snake_case name). -/
def baseBarConstructIntended (vt : Value → Except PyErr Value)
    (kwargs : List (String × Value)) :
    Except PyErr (BaseBarState × List (String × Value)) := do
  let own ← baseBarOwnSetters vt kwargs
  pure (own, removeKeys kwargs baseBarOwnNames)

/-- Modelled from the spec: the INTENDED serialization of a bar-family node
with the `super(self)` slip corrected: own wire entries first, then the
parent levels are merged in and the result is trimmed (spec section 4.2,
`toWire`).  The parent levels are kept abstract as emitting their stored
attributes. -/
def baseBarToDictIntended (st : BaseBarState × List (String × Value)) :
    List (String × Value) :=
  trimEntries (baseBarOwnEntries st.1 ++ st.2)

/-! ## BoxPlotOptions (`src/highcharts/plot_options/boxplot.py`) -/

/-- The `BoxPlotOptions.whisker_length` setter
(`src/highcharts/plot_options/boxplot.py` lines 286-299): null → null;
else try `validators.string` and require a percent sign, falling back on
`ValueError` to `validators.numeric(value, allow_empty = True,
minimum = 0)` (applied to the reassigned value, a string when the percent
check failed). -/
def whiskerLengthSetter (v : Value) : Except PyErr (Option Value) :=
  match v with
  | .null => .ok none
  | v =>
      match vString false v with
      | .error _ =>
          match vNumeric true (some 0) v with
          | .error e => .error e
          | .ok q? => .ok (q?.map Value.num)
      | .ok none => .ok none
      | .ok (some s) =>
          if strContains s "%" then .ok (some (.str s))
          else
            match vNumeric true (some 0) (.str s) with
            | .error e => .error e
            | .ok q? => .ok (q?.map Value.num)

/-- The ten own attributes of `BoxPlotOptions`
(`src/highcharts/plot_options/boxplot.py` lines 32-53). -/
structure BoxPlotState where
  box_dash_style : Option String := none
  median_color : Option ColorVal := none
  median_dash_style : Option String := none
  median_width : Option Rat := none
  stem_dash_style : Option String := none
  stem_width : Option Rat := none
  whisker_color : Option ColorVal := none
  whisker_dash_style : Option String := none
  whisker_length : Option Value := none
  whisker_width : Option Rat := none

/-- The assignment `instance.box_dash_style = value`: the setter validates
and, only on success, the attribute is updated — on an exception the
previous value is untouched (the attribute assignment in the Python setter
body is never reached). -/
def setBoxDashStyle (st : BoxPlotState) (v : Value) :
    Except PyErr BoxPlotState :=
  match boxDashStyleSetter v with
  | .error e => .error e
  | .ok r => .ok { st with box_dash_style := r }

/-- The own-attribute part of `BoxPlotOptions.__init__`
(`src/highcharts/plot_options/boxplot.py` lines 44-53), in source order. -/
def boxPlotOwnSetters (kwargs : List (String × Value)) :
    Except PyErr BoxPlotState := do
  let box_dash_style ← dashStyleSetter "box_dash_style"
    (lookupD kwargs "box_dash_style")
  let median_color ← validateColor (.raw (lookupD kwargs "median_color"))
  let median_dash_style ← dashStyleSetter "median_dash_style"
    (lookupD kwargs "median_dash_style")
  let median_width ← vNumeric true (some 0) (lookupD kwargs "median_width")
  let stem_dash_style ← dashStyleSetter "stem_dash_style"
    (lookupD kwargs "stem_dash_style")
  let stem_width ← vNumeric true (some 0) (lookupD kwargs "stem_width")
  let whisker_color ← validateColor (.raw (lookupD kwargs "whisker_color"))
  let whisker_dash_style ← dashStyleSetter "whisker_dash_style"
    (lookupD kwargs "whisker_dash_style")
  let whisker_length ← whiskerLengthSetter (lookupD kwargs "whisker_length")
  let whisker_width ← vNumeric true (some 0) (lookupD kwargs "whisker_width")
  pure
    { box_dash_style := box_dash_style
      median_color := median_color
      median_dash_style := median_dash_style
      median_width := median_width
      stem_dash_style := stem_dash_style
      stem_width := stem_width
      whisker_color := whisker_color
      whisker_dash_style := whisker_dash_style
      whisker_length := whisker_length
      whisker_width := whisker_width }

/-- `BoxPlotOptions.__init__` (`src/highcharts/plot_options/boxplot.py`
lines 32-55): after setting its own attributes it executes the invalid
call `super(self).__init__(**kwargs)` (line 55), which raises
`TypeError`. -/
def boxPlotConstruct (kwargs : List (String × Value)) :
    Except PyErr BoxPlotState := do
  let _ ← boxPlotOwnSetters kwargs
  .error superSelfTypeError

/-- The own-key entries of `BoxPlotOptions._to_untrimmed_dict`
(`src/highcharts/plot_options/boxplot.py` lines 417-428). -/
def boxPlotOwnEntries (st : BoxPlotState) : List (String × Value) :=
  [("boxDashStyle", optStrToValue st.box_dash_style),
   ("medianColor", colorToValue st.median_color),
   ("medianDashStyle", optStrToValue st.median_dash_style),
   ("medianWidth", optNumToValue st.median_width),
   ("stemDashStyle", optStrToValue st.stem_dash_style),
   ("stemWidth", optNumToValue st.stem_width),
   ("whiskerColor", colorToValue st.whisker_color),
   ("whiskerDashStyle", optStrToValue st.whisker_dash_style),
   ("whiskerLength", optValToValue st.whisker_length),
   ("whiskerWidth", optNumToValue st.whisker_width)]

/-- `BoxPlotOptions._to_untrimmed_dict`
(`src/highcharts/plot_options/boxplot.py` lines 416-434): it builds its
own untrimmed entries and then executes the invalid call
`super(self)._to_untrimmed_dict()` (line 429), which raises
`TypeError`. -/
def boxPlotToUntrimmedDict (st : BoxPlotState) :
    Except PyErr (List (String × Value)) :=
  let _untrimmed := boxPlotOwnEntries st
  .error superSelfTypeError

/-! ## VennOptions (`src/highcharts/plot_options/venn.py`) -/

/-- The `VennOptions.animation_limit` setter
(`src/highcharts/plot_options/venn.py` lines 78-85).  The
`value == float('inf')` branch concerns the floating-point infinity
sentinel, which cannot occur in our rational wire values, so only the
numeric branch is modelled. -/
def animationLimitSetter (v : Value) : Except PyErr (Option Rat) :=
  vNumeric true (some 0) v

/-- The `VennOptions.color_axis` setter
(`src/highcharts/plot_options/venn.py` lines 156-167): null → null;
`False` stored as-is; otherwise try `validators.string`, falling back on
the coercion error (which the collaborator derives from `TypeError`) to
`validators.integer(value, minimum = 0)`. -/
def colorAxisSetter (v : Value) : Except PyErr (Option Value) :=
  match v with
  | .null => .ok none
  | .bool false => .ok (some (.bool false))
  | v =>
      match vString false v with
      | .ok (some s) => .ok (some (.str s))
      | _ =>
          match vInteger false (some 0) v with
          | .error e => .error e
          | .ok q? => .ok (q?.map Value.num)

/-- The ten own attributes of `VennOptions`
(`src/highcharts/plot_options/venn.py` lines 36-62), plus the inherited
`GenericTypeOptions` attributes.  `GenericTypeOptions`
(`highcharts/plot_options/generic.py`) is not among the provided sources;
modelled from the spec (section 2 item 4) it stores the series-level
attributes, kept as a mapping from snake_case name to stored wire
value. -/
structure VennState where
  animation_limit : Option Rat := none
  color_axis : Option Value := none
  color_index : Option Rat := none
  color_key : Option String := none
  crisp : Option Bool := none
  relative_x_value : Option Bool := none
  step : Option String := none
  border_dash_style : Option String := none
  brighten : Option Rat := none
  cluster : Option Value := none
  generic : List (String × Value) := []

/-- The snake_case keyword names popped by `VennOptions.__init__`. -/
def vennOwnNames : List String :=
  ["animation_limit", "color_axis", "color_index", "color_key", "crisp",
   "relative_x_value", "step", "border_dash_style", "brighten", "cluster"]

/-- `VennOptions.__init__` (`src/highcharts/plot_options/venn.py` lines
36-62): own setters in source order, then `super().__init__(**kwargs)`
(a valid zero-argument `super()` call here) into the modelled
`GenericTypeOptions` storage. -/
def vennConstruct (kwargs : List (String × Value)) :
    Except PyErr VennState := do
  let animation_limit ← animationLimitSetter (lookupD kwargs "animation_limit")
  let color_axis ← colorAxisSetter (lookupD kwargs "color_axis")
  let color_index ← vInteger true (some 0) (lookupD kwargs "color_index")
  let color_key ← vString true (lookupD kwargs "color_key")
  let crisp := boolSetter (lookupD kwargs "crisp")
  let relative_x_value := boolSetter (lookupD kwargs "relative_x_value")
  let step ← vString true (lookupD kwargs "step")
  let border_dash_style ← vString true (lookupD kwargs "border_dash_style")
  let brighten ← vNumeric true none (lookupD kwargs "brighten")
  let cluster := classSensitiveSingle (lookupD kwargs "cluster")
  pure
    { animation_limit := animation_limit
      color_axis := color_axis
      color_index := color_index
      color_key := color_key
      crisp := crisp
      relative_x_value := relative_x_value
      step := step
      border_dash_style := border_dash_style
      brighten := brighten
      cluster := cluster
      generic := removeKeys kwargs vennOwnNames }

/-- The keyword-argument mapping built by
`VennOptions._get_kwargs_from_dict`
(`src/highcharts/plot_options/venn.py` lines 285-330): every recognized
camelCase wire key is popped into its snake_case keyword name. -/
def vennGetKwargsFromDict (d : List (String × Value)) :
    List (String × Value) :=
  [("accessibility", lookupD d "accessibility"),
   ("allow_point_select", lookupD d "allowPointSelect"),
   ("animation", lookupD d "animation"),
   ("class_name", lookupD d "className"),
   ("clip", lookupD d "clip"),
   ("color", lookupD d "color"),
   ("cursor", lookupD d "cursor"),
   ("custom", lookupD d "custom"),
   ("dash_style", lookupD d "dashStyle"),
   ("data_labels", lookupD d "dataLabels"),
   ("description", lookupD d "description"),
   ("enable_mouse_tracking", lookupD d "enableMouseTracking"),
   ("events", lookupD d "events"),
   ("include_in_data_export", lookupD d "includeInDataExport"),
   ("keys", lookupD d "keys"),
   ("label", lookupD d "label"),
   ("linked_to", lookupD d "linkedTo"),
   ("marker", lookupD d "marker"),
   ("on_point", lookupD d "onPoint"),
   ("opacity", lookupD d "opacity"),
   ("point", lookupD d "point"),
   ("point_description_formatter", lookupD d "pointDescriptionFormatter"),
   ("selected", lookupD d "selected"),
   ("show_checkbox", lookupD d "showCheckbox"),
   ("show_in_legend", lookupD d "showInLegend"),
   ("skip_keyboard_navigation", lookupD d "skipKeyboardNavigation"),
   ("states", lookupD d "states"),
   ("sticky_tracking", lookupD d "stickyTracking"),
   ("threshold", lookupD d "threshold"),
   ("tooltip", lookupD d "tooltip"),
   ("turbo_threshold", lookupD d "turboThreshold"),
   ("visible", lookupD d "visible"),
   ("animation_limit", lookupD d "animationLimit"),
   ("color_axis", lookupD d "colorAxis"),
   ("color_index", lookupD d "colorIndex"),
   ("color_key", lookupD d "colorKey"),
   ("crisp", lookupD d "crisp"),
   ("relative_x_value", lookupD d "relativeXValue"),
   ("step", lookupD d "step"),
   ("border_dash_style", lookupD d "borderDashStyle"),
   ("brighten", lookupD d "brighten"),
   ("cluster", lookupD d "cluster")]

/-- Modelled from the spec: the generic `fromWire` of the schema-node base
(spec section 4.2): class-specific key extraction, then delegation to the
constructor. -/
def vennFromDict (d : List (String × Value)) : Except PyErr VennState :=
  vennConstruct (vennGetKwargsFromDict d)

/-- The own-key entries of `VennOptions._to_untrimmed_dict`
(`src/highcharts/plot_options/venn.py` lines 335-347) — note that, unlike
every other serializer in the sources, these keys are the snake_case
internal attribute names, not the camelCase wire keys recognized by
`VennOptions._get_kwargs_from_dict`. -/
def vennOwnEntries (st : VennState) : List (String × Value) :=
  [("animation_limit", optNumToValue st.animation_limit),
   ("color_axis", optValToValue st.color_axis),
   ("color_index", optNumToValue st.color_index),
   ("color_key", optStrToValue st.color_key),
   ("crisp", optBoolToValue st.crisp),
   ("relative_x_value", optBoolToValue st.relative_x_value),
   ("step", optStrToValue st.step),
   ("border_dash_style", optStrToValue st.border_dash_style),
   ("brighten", optNumToValue st.brighten),
   ("cluster", optValToValue st.cluster)]

/-- Modelled from the spec: the serializer of the missing parent class
`GenericTypeOptions` (spec sections 2 item 4 and 4.3): it emits its stored
attributes under their camelCase wire keys; the key table is the parent
block of the recognized key set in `VennOptions._get_kwargs_from_dict`. -/
def genericTypeOwnEntries (generic : List (String × Value)) :
    List (String × Value) :=
  let g := fun n => lookupD generic n
  [("accessibility", g "accessibility"),
   ("allowPointSelect", g "allow_point_select"),
   ("animation", g "animation"),
   ("className", g "class_name"),
   ("clip", g "clip"),
   ("color", g "color"),
   ("cursor", g "cursor"),
   ("custom", g "custom"),
   ("dashStyle", g "dash_style"),
   ("dataLabels", g "data_labels"),
   ("description", g "description"),
   ("enableMouseTracking", g "enable_mouse_tracking"),
   ("events", g "events"),
   ("includeInDataExport", g "include_in_data_export"),
   ("keys", g "keys"),
   ("label", g "label"),
   ("linkedTo", g "linked_to"),
   ("marker", g "marker"),
   ("onPoint", g "on_point"),
   ("opacity", g "opacity"),
   ("point", g "point"),
   ("pointDescriptionFormatter", g "point_description_formatter"),
   ("selected", g "selected"),
   ("showCheckbox", g "show_checkbox"),
   ("showInLegend", g "show_in_legend"),
   ("skipKeyboardNavigation", g "skip_keyboard_navigation"),
   ("states", g "states"),
   ("stickyTracking", g "sticky_tracking"),
   ("threshold", g "threshold"),
   ("tooltip", g "tooltip"),
   ("turboThreshold", g "turbo_threshold"),
   ("visible", g "visible")]

/-- `VennOptions._to_untrimmed_dict`
(`src/highcharts/plot_options/venn.py` lines 334-353): its own entries,
then the parent entries merged in (keys never collide). -/
def vennToUntrimmedDict (st : VennState) : List (String × Value) :=
  vennOwnEntries st ++ genericTypeOwnEntries st.generic

/-- The full wire form of a `VennOptions` node: the untrimmed mapping run
through the trimming engine (spec section 4.2, `toWire`). -/
def vennToDict (st : VennState) : List (String × Value) :=
  trimEntries (vennToUntrimmedDict st)

/-! ## Shared lemmas -/

/-- A computation that unconditionally ends in `raise` never succeeds,
whatever its prefix does. -/
theorem isError_bind_error {α β : Type} (x : Except PyErr α) (e : PyErr) :
    isError (x >>= fun _ => (Except.error e : Except PyErr β)) = true := by
  cases x <;> rfl

/-- Wrapping a successful list result in `some` commutes with the bind. -/
theorem bind_pure_some (x : Except PyErr (List Value)) :
    (x >>= fun c => (pure (some c) : Except PyErr (Option (List Value))))
      = x.map some := by
  cases x <;> rfl

/-- On a list input the whole-value `isinstance(value, str)` guard of the
`colors` loop is false, so the loop routes every item through
`validate_types`. -/
theorem colorsLoop_eq_via (vt : Value → Except PyErr Value)
    (xs l : List Value) :
    colorsLoop vt (.list xs) l = colorsViaValidateTypes vt l := by
  induction l with
  | nil => rfl
  | cons a t ih => simp [colorsLoop, colorsViaValidateTypes, isStrValue, ih]

/-! ## Claims -/

/-- Claim C1: the spec asserts the round trip
`fromWire(toWire(construct(X))) == construct(X)` for every concrete schema
class and valid initializer mapping `X` (structural equality on trimmed
wire form).  The code breaks it: `NumericAxis.to_dict` emits the key
`plotPands` for the `plot_bands` attribute while `NumericAxis.from_dict`
recognizes only `plotBands`, and emits the snake_case key `class_name`
while `from_dict` recognizes only `className`; so a node with
`plot_bands` (or `class_name`) set serializes to a mapping from which
reconstruction loses the attribute, and the round-tripped wire form is
empty instead of equal. -/
theorem roundTripDroppedKeys :
    (numericFromDict failingApi failingApi
        [("plotBands", Value.list [Value.dict [("color", Value.str "red")]])]).map
        numericToDict
      = Except.ok
          [("plotPands", Value.list [Value.dict [("color", Value.str "red")]])]
  ∧ (numericFromDict failingApi failingApi
        [("plotPands", Value.list [Value.dict [("color", Value.str "red")]])]).map
        numericToDict
      = Except.ok []
  ∧ ([("plotPands", Value.list [Value.dict [("color", Value.str "red")]])] :
        List (String × Value)) ≠ []
  ∧ (numericFromDict failingApi failingApi [("className", Value.str "x")]).map
        numericToDict
      = Except.ok [("class_name", Value.str "x")]
  ∧ (numericFromDict failingApi failingApi [("class_name", Value.str "x")]).map
        numericToDict
      = Except.ok [] := by
  refine ⟨rfl, rfl, ?_, rfl, rfl⟩
  simp

/-- Claim C2, counterexample: the claim locates the `plotPands` misspelling
in a boxplot-family serializer and says no other class emits it.  In the
code the boxplot serializer key table contains no `plotPands` (and the
boxplot serializer raises `TypeError` before emitting anything), while
`NumericAxis.to_dict` — an axis class — does emit `plotPands`. -/
theorem plotPandsNotEmittedByBoxplot :
    ("plotPands" ∉ (boxPlotOwnEntries {}).map Prod.fst)
  ∧ isError (boxPlotToUntrimmedDict {}) = true
  ∧ (numericFromDict failingApi failingApi
        [("plotBands", Value.list [Value.dict [("color", Value.str "red")]])]).map
        numericToDict
      = Except.ok
          [("plotPands", Value.list [Value.dict [("color", Value.str "red")]])] := by
  refine ⟨?_, rfl, rfl⟩
  decide

/-- Claim C2, amended: the one misspelled serializer key in the sources is
in the numeric-axis serializer, not the boxplot family:
`NumericAxis.to_dict` emits `plotPands` (and never `plotBands`) for the
inherited-pattern `plot_bands` attribute, while the boxplot-family and
bar-family serializer key tables, and the venn serializer, never mention
`plotPands`. -/
theorem plotPandsEmittedByNumericAxisOnly :
    (∀ st : NumericAxis,
        ((numericToUntrimmed st).map Prod.fst).contains "plotPands" = true
      ∧ ((numericToUntrimmed st).map Prod.fst).contains "plotBands" = false)
  ∧ (∀ st : BoxPlotState,
        ((boxPlotOwnEntries st).map Prod.fst).contains "plotPands" = false)
  ∧ (∀ st : BaseBarState,
        ((baseBarOwnEntries st).map Prod.fst).contains "plotPands" = false)
  ∧ (∀ st : VennState,
        ((vennToUntrimmedDict st).map Prod.fst).contains "plotPands" = false) :=
  ⟨fun _ => ⟨rfl, rfl⟩, fun _ => rfl, fun _ => rfl, fun _ => rfl⟩

/-- Claim C3: the spec says a plain color string with no gradient or
pattern marker validates and is stored as a plain string (in particular
`"#ff0000"` is stored and does not raise).  The code disagrees: the
`alternate_grid_color` setter has no plain-string branch — a marker-free
string falls through every `elif` to the final `raise
HighchartsValueError` — even though the docstring and return type of the
property name `str` as a supported value.  This holds for every possible
behavior of the `Gradient` and `Pattern` collaborators, which are never
consulted. -/
theorem plainColorStringRaises :
    ∀ g p : ParseApi,
      alternateGridColorSetter g p (.raw (.str "#ff0000"))
        = .error (.valueError
            "Unable to resolve value to a string, Gradient, or Pattern") :=
  fun _ _ => rfl

/-- Claim C4: when a value carries the `linearGradient` marker but parsing
it as a `Gradient` fails, the setter falls back to storing the value as a
plain color string exactly when the value is itself a string; a dict whose
gradient parses (`from_json`, then `from_dict`) both fail makes the setter
raise instead of falling back. -/
theorem gradientFallbackOnlyForStrings :
    (∀ (g p : ParseApi) (s : String),
      strContains s "linearGradient" = true →
      g.fromJson (.str s) = none →
      alternateGridColorSetter g p (.raw (.str s)) = .ok (some (.plain s)))
  ∧ (∀ (g p : ParseApi) (es : List (String × Value)),
      hasKey es "linearGradient" = true →
      g.fromJson (.dict es) = none →
      g.fromDict (.dict es) = none →
      isError (alternateGridColorSetter g p (.raw (.dict es))) = true) := by
  constructor
  · intro g p s hc hj
    have hs : s ≠ "" := by
      intro h
      rw [h] at hc
      exact absurd hc (by decide)
    simp only [alternateGridColorSetter, pyTruthy, hs, decide_not]
    simp [hs, hc, hj]
  · intro g p es hc hj hd
    have hne : es.isEmpty = false := by
      cases es with
      | nil => exact absurd hc (by decide)
      | cons a l => rfl
    simp only [alternateGridColorSetter, pyTruthy]
    simp [hne, hc, hj, hd, isError]

/-- Claim C4, witness: at the concrete string `"alinearGradientb"` and the
concrete mapping from the spec example (with every parse failing), the
fallback stores the plain string for the string input and raises for the
dict input. -/
theorem gradientFallbackOnlyForStrings_witness :
    (strContains "alinearGradientb" "linearGradient" = true
      ∧ alternateGridColorSetter failingApi failingApi
          (.raw (.str "alinearGradientb"))
          = .ok (some (.plain "alinearGradientb")))
  ∧ (hasKey [("linearGradient", Value.str "malformed")] "linearGradient" = true
      ∧ isError (alternateGridColorSetter failingApi failingApi
          (.raw (.dict [("linearGradient", Value.str "malformed")]))) = true) :=
  ⟨⟨by decide,
    gradientFallbackOnlyForStrings.1 failingApi failingApi _ (by decide) rfl⟩,
   ⟨by decide,
    gradientFallbackOnlyForStrings.2 failingApi failingApi _ (by decide) rfl rfl⟩⟩

/-- Claim C5: the boolean setter body shared by `color_by_point` and
`align_ticks` (and the other boolean attributes) stores `False` when given
`False` and stores the null sentinel exactly when given `None`; and a
stored `False` survives serialization as an explicitly emitted wire key
(`alignTicks` below) rather than being trimmed as empty. -/
theorem booleanFalseDistinctFromNull :
    (∀ v : Value, (boolSetter v = none ↔ v = .null))
  ∧ colorByPointSetter (.bool false) = some false
  ∧ alignTicksSetter (.bool false) = some false
  ∧ (numericConstruct failingApi failingApi
        [("align_ticks", Value.bool false)]).map numericToDict
      = Except.ok [("alignTicks", Value.bool false)] := by
  refine ⟨?_, rfl, rfl, rfl⟩
  intro v
  cases v <;> simp [boolSetter]

/-- Claim C6: assigning a member of the allowed dash-style set to
`box_dash_style` stores it unchanged, while assigning any non-empty string
outside the set raises `HighchartsValueError` naming the attribute and the
received value — and, the assignment being modelled as state-update only
on success, the attribute keeps its previous value on failure. -/
theorem dashStyleSetterValidatesAtomically :
    (∀ (st : BoxPlotState) (s : String),
      s ∈ SUPPORTED_DASH_STYLE_VALUES →
      setBoxDashStyle st (.str s) = .ok { st with box_dash_style := some s })
  ∧ (∀ (st : BoxPlotState) (s : String),
      s ≠ "" → s ∉ SUPPORTED_DASH_STYLE_VALUES →
      setBoxDashStyle st (.str s) = .error (.valueError
        ("box_dash_style expects a recognized value, but received: " ++ s))) := by
  constructor
  · intro st s hmem
    fin_cases hmem <;> rfl
  · intro st s hne hnm
    simp [setBoxDashStyle, boxDashStyleSetter, dashStyleSetter, pyTruthy,
      vString, hne, hnm]

/-- Claim C6, witness: at the member `"Dash"` and the non-member
`"NotARealStyle"` on a concrete default state. -/
theorem dashStyleSetterValidatesAtomically_witness :
    ("Dash" ∈ SUPPORTED_DASH_STYLE_VALUES
      ∧ setBoxDashStyle {} (.str "Dash")
          = .ok { ({} : BoxPlotState) with box_dash_style := some "Dash" })
  ∧ ("NotARealStyle" ∉ SUPPORTED_DASH_STYLE_VALUES
      ∧ setBoxDashStyle {} (.str "NotARealStyle") = .error (.valueError
          ("box_dash_style expects a recognized value, but received: "
            ++ "NotARealStyle"))) :=
  ⟨⟨by decide, dashStyleSetterValidatesAtomically.1 {} "Dash" (by decide)⟩,
   ⟨by decide,
    dashStyleSetterValidatesAtomically.2 {} "NotARealStyle" (by decide)
      (by decide)⟩⟩

/-- Claim C7: the spec scenario — constructing a bar-family node from
`pointPadding = 0.1`, `borderWidth = None`, `colorByPoint = False` and
serializing — is supposed to yield exactly the mapping with
`pointPadding` and `colorByPoint` (null trimmed, `False` kept).  The code
cannot run it: `BaseBarOptions.__init__` raises `TypeError` at its
invalid `super(self).__init__(**kwargs)` delegation, so construction
fails; with that one slip corrected, the pipeline yields exactly the
mapping the spec demands. -/
theorem barScenarioRaisesBeforeSerializing :
    baseBarFromDict validateTypesGP
        [("pointPadding", Value.num (mkRat 1 10)), ("borderWidth", Value.null),
         ("colorByPoint", Value.bool false)]
      = Except.error superSelfTypeError
  ∧ (baseBarConstructIntended validateTypesGP
        (baseBarGetKwargsFromDict
          [("pointPadding", Value.num (mkRat 1 10)), ("borderWidth", Value.null),
           ("colorByPoint", Value.bool false)])).map baseBarToDictIntended
      = Except.ok
          [("colorByPoint", Value.bool false),
           ("pointPadding", Value.num (mkRat 1 10))] :=
  ⟨rfl, rfl⟩

/-- Claim C8: the spec asserts every serializer emits the camelCase wire
key of each attribute — the same key its `_get_kwargs_from_dict`
recognizes — never the snake_case internal name.  The code breaks it:
`VennOptions._to_untrimmed_dict` emits all ten of its own attributes under
their snake_case names, so a node built from the recognized wire key
`animationLimit` serializes to `animation_limit` — a key its own
reconstruction does not recognize and drops. -/
theorem vennSerializerEmitsSnakeCaseKeys :
    (∀ st : VennState, (vennOwnEntries st).map Prod.fst
        = ["animation_limit", "color_axis", "color_index", "color_key",
           "crisp", "relative_x_value", "step", "border_dash_style",
           "brighten", "cluster"])
  ∧ (vennFromDict
        [("animationLimit", Value.num 5), ("className", Value.str "x")]).map
        vennToDict
      = Except.ok [("animation_limit", Value.num 5), ("className", Value.str "x")]
  ∧ (vennFromDict [("animation_limit", Value.num 5)]).map vennToDict
      = Except.ok [] :=
  ⟨fun _ => rfl, rfl, rfl⟩

/-- Claim C9, counterexample: the claim says EVERY keyword-argument input
makes the bar-family constructors raise `TypeError`.  Not quite: an input
that fails attribute validation raises the validation error first — at
`border_radius = -1` the constructor raises a `ValueError` (minimum
violated), not a `TypeError`. -/
theorem barConstructorRaisesValueErrorFirst :
    isError (baseBarConstruct validateTypesGP
        [("border_radius", Value.num (mkRat (-1) 1))]) = true
  ∧ isTypeErrorResult (baseBarConstruct validateTypesGP
        [("border_radius", Value.num (mkRat (-1) 1))]) = false :=
  ⟨rfl, rfl⟩

/-- Claim C9, amended: no keyword-argument input ever constructs a
`BaseBarOptions`, `BarOptions` or `BoxPlotOptions` (nor does
`BaseBarOptions._to_untrimmed_dict` ever complete) — every run raises;
and whenever the attribute validations succeed, the error is precisely
the `TypeError` from the invalid `super(self)` delegation. -/
theorem barFamilyConstructionAlwaysFails :
    (∀ (vt : Value → Except PyErr Value) (kwargs : List (String × Value)),
        isError (baseBarConstruct vt kwargs) = true)
  ∧ (∀ kwargs : List (String × Value), isError (barOptionsConstruct kwargs) = true)
  ∧ (∀ kwargs : List (String × Value), isError (boxPlotConstruct kwargs) = true)
  ∧ (∀ st : BaseBarState, isError (baseBarToUntrimmedDict st) = true)
  ∧ (∀ st : BoxPlotState, isError (boxPlotToUntrimmedDict st) = true)
  ∧ (∀ (vt : Value → Except PyErr Value) (kwargs : List (String × Value))
        (st : BaseBarState),
        baseBarOwnSetters vt kwargs = .ok st →
        baseBarConstruct vt kwargs = .error superSelfTypeError) := by
  refine ⟨?_, ?_, ?_, fun _ => rfl, fun _ => rfl, ?_⟩
  · intro vt kwargs
    exact isError_bind_error (baseBarOwnSetters vt kwargs) superSelfTypeError
  · intro kwargs
    exact isError_bind_error (barOptionsOwnSetters kwargs) superSelfTypeError
  · intro kwargs
    exact isError_bind_error (boxPlotOwnSetters kwargs) superSelfTypeError
  · intro vt kwargs st h
    rw [baseBarConstruct, h]
    rfl

/-- Claim C9, witness: on the empty keyword input the own setters all
succeed and construction raises exactly the `super(self)` TypeError. -/
theorem barFamilyConstructionAlwaysFails_witness :
    baseBarOwnSetters validateTypesGP [] = .ok {}
  ∧ baseBarConstruct validateTypesGP [] = .error superSelfTypeError :=
  ⟨rfl,
   barFamilyConstructionAlwaysFails.2.2.2.2.2 validateTypesGP [] {} rfl⟩

/-- Claim C10: in the `colors` setter the per-item plain-string branch is
unreachable for list input — the guard tests `isinstance` on the whole
list, which is never a string, so every item (plain color strings
included) is routed through the `Gradient`/`Pattern` type validation; in
particular a list containing a plain color string is rejected by that
validation rather than accepted via the string path. -/
theorem colorsListStringBranchUnreachable :
    (∀ xs : List Value, isStrValue (.list xs) = false)
  ∧ (∀ (vt : Value → Except PyErr Value) (xs : List Value),
      xs ≠ [] →
      colorsSetter vt (.list xs) = (colorsViaValidateTypes vt xs).map some)
  ∧ colorsSetter validateTypesGP (.list [.str "#ff0000"])
      = .error (.valueError "value is not a Gradient or Pattern instance") := by
  refine ⟨fun _ => rfl, ?_, rfl⟩
  intro vt xs hne
  have h0 : xs.isEmpty = false := by
    cases xs with
    | nil => exact absurd rfl hne
    | cons a l => rfl
  simp only [colorsSetter, pyTruthy, h0, Bool.not_false, Bool.not_true,
    Bool.false_eq_true, if_false, vIterable]
  rw [show (Except.ok xs >>= fun xs2 =>
      colorsLoop vt (Value.list xs) xs2 >>= fun c =>
        (pure (some c) : Except PyErr (Option (List Value))))
    = (colorsLoop vt (Value.list xs) xs >>= fun c => pure (some c)) from rfl]
  rw [colorsLoop_eq_via]
  exact bind_pure_some _

/-- Claim C10, witness: at the concrete one-element list holding the plain
color string `"#ff0000"`, the setter equals the route-everything-through
`validate_types` loop. -/
theorem colorsListStringBranchUnreachable_witness :
    ([Value.str "#ff0000"] ≠ ([] : List Value))
  ∧ colorsSetter validateTypesGP (.list [Value.str "#ff0000"])
      = (colorsViaValidateTypes validateTypesGP [Value.str "#ff0000"]).map some :=
  ⟨by simp,
   colorsListStringBranchUnreachable.2.1 validateTypesGP _ (by simp)⟩

end Highcharts
